import Mathlib

/-!
Shallow embedding of the `reception` map-generation program (`reception.go`).

Strings are modelled as lists of characters (`Str`), Go `float64` values as
rationals, Go `int` as `ℤ`, and Go maps as association lists or total
functions with Go's zero-value default.  Fallible operations (Go runtime
panics such as calling a method on a nil interface) are modelled with
`Option`, `none` meaning the program faults.
-/

/-- Strings of the Go program, modelled as lists of characters. -/
abbrev Str := List Char

/-- Model of Go `strings.ToUpper` (ASCII range, which covers call signs). -/
def goToUpper (s : Str) : Str := s.map Char.toUpper

/-- Call-sign normalization used by `loadOperators` (reception.go:269):
`strings.ReplaceAll(strings.ToUpper(record[0]), " ", "")` — uppercase, then
remove every space character. -/
def operatorKey (s : Str) : Str := (goToUpper s).filter (fun c => c ≠ ' ')

/-- Call-sign normalization used by `loadReports` (reception.go:348-352):
`strings.ToUpper(record[i])` only — no space removal. -/
def reportKey (s : Str) : Str := goToUpper s

/-- One reception-report CSV record: transmitter call sign, receiver call
sign, icon/category name (per the doc comment of `loadReports`). -/
structure reportRecord where
  field0 : Str
  field1 : Str
  field2 : Str

/-- The (transmitter, receiver) key pair chosen by `loadReports`
(reception.go:346-353): when `cfg.RcvMapFlag` is true the transmitter key is
the first column; when it is false the transmitter key is the second
column. -/
def reportKeyPair (rcvMapFlag : Bool) (r : reportRecord) : Str × Str :=
  if rcvMapFlag then (reportKey r.field0, reportKey r.field1)
  else (reportKey r.field1, reportKey r.field0)

/-- The ReportMatrix built by `loadReports` (reception.go:324-366), as a
lookup function: `none` models an absent entry of the nested Go map.  Later
records overwrite earlier ones, as Go map assignment does. -/
def loadReports (rcvMapFlag : Bool) (records : List reportRecord) :
    Str → Str → Option Str :=
  records.foldl
    (fun acc r =>
      let keys := reportKeyPair rcvMapFlag r
      fun t rc => if t = keys.1 ∧ rc = keys.2 then some r.field2 else acc t rc)
    (fun _ _ => none)

/-- Set-insert into a list of keys, modelling `m[k] = true` on a Go
`map[string]bool`. -/
def setInsert (x : Str) (s : List Str) : List Str := if x ∈ s then s else x :: s

/-- The transmitter key set returned by `loadReports`
(`transmitters[transmitter] = true`, reception.go:362). -/
def reportTransmitters (rcvMapFlag : Bool) (records : List reportRecord) : List Str :=
  records.foldl (fun s r => setInsert (reportKeyPair rcvMapFlag r).1 s) []

/-- The receiver key set returned by `loadReports`
(`receivers[receiver] = true`, reception.go:361). -/
def reportReceivers (rcvMapFlag : Bool) (records : List reportRecord) : List Str :=
  records.foldl (fun s r => setInsert (reportKeyPair rcvMapFlag r).2 s) []

/-- Transmitter selection of `main` (reception.go:127-136): if
`cfg.CallSigns` differs from the exact string `"ALL"`, uppercase it, remove
spaces, split on commas, and keep only the asked-for call signs that appear
in the transmitter set. -/
def selectTransmitters (callSigns : Str) (transmitters : List Str) : List Str :=
  if callSigns = "ALL".toList then transmitters
  else (((goToUpper callSigns).filter (fun c => c ≠ ' ')).splitOn ',').filter
    (fun call => transmitters.contains call)

/-- Output file name chosen by `main` (reception.go:176-181). -/
def outputFileName (outputDirectory : Str) (rcvMapFlag : Bool) (transmitter : Str) : Str :=
  if rcvMapFlag then
    outputDirectory ++ "/".toList ++ transmitter ++ "-rcvr-map".toList ++ ".png".toList
  else
    outputDirectory ++ "/".toList ++ transmitter ++ "-xmit-map".toList ++ ".png".toList

/-- Latitude-longitude coordinates (`gpsCoord` in reception.go), with Go
`float64` modelled as `ℚ`. -/
structure gpsCoord where
  lat : ℚ
  long : ℚ
deriving DecidableEq

/-- Go's `int(x)` conversion from `float64`: truncation toward zero. -/
def goTrunc (x : ℚ) : ℤ := if 0 ≤ x then ⌊x⌋ else -⌊-x⌋

/-- The projector closure built by `newGpsToPixel` (reception.go:403-433).
The external geodetic-to-UTM conversion (`UTM.FromLatLon`, a third-party
library) is a parameter `fromLatLon` returning an (easting, northing) pair.
`imageWidth`/`imageHeight` are `mapImage.Bounds().Dx()`/`.Dy()`. -/
def newGpsToPixel (fromLatLon : gpsCoord → ℚ × ℚ) (nwCorner seCorner : gpsCoord)
    (imageWidth imageHeight : ℤ) : gpsCoord → ℤ × ℤ :=
  let eastingNW := (fromLatLon nwCorner).1
  let northingNW := (fromLatLon nwCorner).2
  let eastingSE := (fromLatLon seCorner).1
  let northingSE := (fromLatLon seCorner).2
  let xMetersPerPixel := (eastingSE - eastingNW) / (imageWidth : ℚ)
  let yMetersPerPixel := (northingNW - northingSE) / (imageHeight : ℚ)
  fun gps =>
    let easting := (fromLatLon gps).1
    let northing := (fromLatLon gps).2
    (goTrunc ((easting - eastingNW) / xMetersPerPixel + 1/2),
     goTrunc ((northingNW - northing) / yMetersPerPixel + 1/2))

/-- Modelled from the spec: the external geodetic-to-projected conversion
(the UTM library is not part of this repository).  The spec describes it as
a locally-flat metric (easting/northing) projection; this is the linear
local approximation around the configured map area (about 37° N), in meters
per degree. -/
def utmApprox (gps : gpsCoord) : ℚ × ℚ :=
  (88000 * (gps.long + 123), 110574 * gps.lat)

/-- Northwest map corner from the shipped configuration file
(`MapNWCorner = [37.4166, -122.11558]`). -/
def mapNWCorner : gpsCoord := ⟨37.4166, -122.11558⟩

/-- Southeast map corner from the shipped configuration file
(`MapSECorner = [37.35829, -122.04211]`). -/
def mapSECorner : gpsCoord := ⟨37.35829, -122.04211⟩

/-- Station data for one operator (`operatorData` in reception.go). -/
structure operatorData where
  callsign : Str
  gps : gpsCoord
  pixel : ℤ × ℤ
  xmitPwr : ℚ
  antType : Str
  antGain : ℚ
  antHeight : ℚ
deriving DecidableEq

/-- Go's zero value for `operatorData`, returned by indexing a Go map at an
absent key. -/
instance : Inhabited operatorData :=
  ⟨⟨[], ⟨0, 0⟩, (0, 0), 0, [], 0, 0⟩⟩

/-- One operator CSV record with the numeric fields already parsed (CSV
parsing is an excluded collaborator). -/
structure operatorRecord where
  field0 : Str
  lat : ℚ
  long : ℚ
  xmitPwr : ℚ
  antType : Str
  antGain : ℚ
  antHeight : ℚ

/-- The operator table built by `loadOperators` (reception.go:249-309), as
an association list; entries consed at the front so that, as with Go map
assignment, a later record for the same key shadows an earlier one. -/
def loadOperators (project : gpsCoord → ℤ × ℤ) (records : List operatorRecord) :
    List (Str × operatorData) :=
  records.foldl
    (fun acc r =>
      let callsign := operatorKey r.field0
      (callsign,
       ⟨callsign, ⟨r.lat, r.long⟩, project ⟨r.lat, r.long⟩,
        r.xmitPwr, r.antType, r.antGain, r.antHeight⟩) :: acc)
    []

/-- Indexing a Go `map[string]operatorData` (e.g. `operators[receiver]`,
reception.go:164): an absent key yields the zero value. -/
def opLookup (ops : List (Str × operatorData)) (k : Str) : operatorData :=
  match ops.find? (fun p => p.1 == k) with
  | some p => p.2
  | none => default

/-- One line emitted by `plotLegend` (reception.go:369-400), identified by
which `drawLegend` call produced it, carrying the datum it renders (the
`fmt.Sprintf` text formatting is an excluded collaborator). -/
inductive legendLine
  | title (rcvMapFlag : Bool) (transmitter : Str)
  | frequency
  | power (watts : ℚ)
  | antennaType (t : Str)
  | antennaHeight (feet : ℚ)
  | antennaGain (dBi : ℚ)
deriving DecidableEq

/-- The sequence of legend lines drawn by `plotLegend`
(reception.go:369-400): title and frequency always; the power, antenna-type,
antenna-height and antenna-gain lines only when the field differs from the
unknown sentinel (`-100` for the numeric fields, `""` for the type). -/
def plotLegend (rcvMapFlag : Bool) (transmitter : Str) (opData : operatorData) :
    List legendLine :=
  [legendLine.title rcvMapFlag transmitter, legendLine.frequency] ++
  (if opData.xmitPwr ≠ -100 then [legendLine.power opData.xmitPwr] else []) ++
  (if opData.antType ≠ [] then [legendLine.antennaType opData.antType] else []) ++
  (if opData.antHeight ≠ -100 then [legendLine.antennaHeight opData.antHeight] else []) ++
  (if opData.antGain ≠ -100 then [legendLine.antennaGain opData.antGain] else [])

/-- Drawing effects of the per-transmitter loop, abstracted from raster
content: an icon blit centered at an operator's pixel, a call-sign label
drawn next to it, or the "Skipping icon for missing operator" notice. -/
inductive mapAction
  | blit (iconName : Str) (center : ℤ × ℤ)
  | label (callsign : Str) (center : ℤ × ℤ)
  | skipNote
deriving DecidableEq

/-- Model of `plotIcon` (reception.go:493-512).  The icon argument is the
result of a Go map lookup: `none` models the nil `image.Image` interface an
absent key yields.  If the operator's call sign is empty the function prints
a notice and returns before touching the icon; otherwise a `none` icon means
`icon.Bounds()` dereferences a nil interface and the program faults, which
the model signals with `none`. -/
def plotIcon (icon : Option Str) (operator : operatorData) : Option (List mapAction) :=
  if operator.callsign = [] then some [mapAction.skipNote]
  else
    match icon with
    | none => none
    | some iconName =>
        some [mapAction.blit iconName operator.pixel,
              mapAction.label operator.callsign operator.pixel]

/-- One iteration of the receiver loop of `main` (reception.go:151-165):
skip the transmitter itself; read `reports[transmitter][receiver]` (absent
nested entries yield `""`); skip when the report is empty or no icon exists
for it; otherwise plot the icon for the receiver's operator data. -/
def receiverStep (icons : List Str) (reports : Str → Str → Option Str)
    (operators : Str → operatorData) (transmitter receiver : Str) :
    Option (List mapAction) :=
  if transmitter = receiver then some []
  else
    let report := (reports transmitter receiver).getD []
    if report = [] ∨ icons.contains report = false then some []
    else plotIcon (some report) (operators receiver)

/-- Sequence a list of fallible drawing steps, concatenating their actions;
any faulting step faults the whole run. -/
def mapSteps : List (Option (List mapAction)) → Option (List mapAction)
  | [] => some []
  | step :: rest => step.bind (fun acts => (mapSteps rest).map (fun acc => acts ++ acc))

/-- One iteration of the per-transmitter loop of `main`
(reception.go:144-191): run the receiver loop, plot the transmitter's own
icon (`icons[cfg.TransIcon]`, a plain Go map lookup that yields nil when the
key is absent), write the legend, and emit the output file name.  `none`
models the program faulting mid-map. -/
def generateMap (icons : List Str) (reports : Str → Str → Option Str)
    (operators : Str → operatorData) (receivers : List Str) (transIcon : Str)
    (rcvMapFlag : Bool) (outputDirectory : Str) (transmitter : Str) :
    Option (List mapAction × List legendLine × Str) :=
  match mapSteps (receivers.map (receiverStep icons reports operators transmitter)) with
  | none => none
  | some recActs =>
    match plotIcon (if icons.contains transIcon then some transIcon else none)
        (operators transmitter) with
    | none => none
    | some transActs =>
      some (recActs ++ transActs,
            plotLegend rcvMapFlag transmitter (operators transmitter),
            outputFileName outputDirectory rcvMapFlag transmitter)

/-- A color sample at the 16-bit-per-channel depth of Go's
`color.Color.RGBA()` interface (alpha-premultiplied). -/
structure rgba where
  r : ℕ
  g : ℕ
  b : ℕ
  a : ℕ
deriving DecidableEq

/-- A raster image as a total pixel function (reads outside an image's
bounds are never performed by the modelled drawing operations). -/
abbrev rasterImage := ℤ × ℤ → rgba

/-- An image rectangle, as in `image.Rectangle`: min inclusive, max
exclusive. -/
structure rect where
  x0 : ℤ
  y0 : ℤ
  x1 : ℤ
  y1 : ℤ

/-- Membership of a pixel in a rectangle. -/
def inRect (bnds : rect) (p : ℤ × ℤ) : Bool :=
  decide (bnds.x0 ≤ p.1) && decide (p.1 < bnds.x1) &&
  decide (bnds.y0 ≤ p.2) && decide (p.2 < bnds.y1)

/-- Porter-Duff source-over blending of one pixel, as `draw.Over` computes
it in 16-bit space: `dst = src + dst*(0xffff-srcAlpha)/0xffff`. -/
def overPix (src dst : rgba) : rgba :=
  ⟨src.r + dst.r * (65535 - src.a) / 65535,
   src.g + dst.g * (65535 - src.a) / 65535,
   src.b + dst.b * (65535 - src.a) / 65535,
   src.a + dst.a * (65535 - src.a) / 65535⟩

/-- `draw.Draw(dst, bounds, src, zeroPoint, draw.Src)`: opaque copy of the
source over the rectangle. -/
def drawSrc (bnds : rect) (dst src : rasterImage) : rasterImage :=
  fun p => if inRect bnds p then src p else dst p

/-- `draw.Draw(dst, bounds, src, zeroPoint, draw.Over)`: alpha-composite the
source over the rectangle. -/
def drawOver (bnds : rect) (dst src : rasterImage) : rasterImage :=
  fun p => if inRect bnds p then overPix (src p) (dst p) else dst p

/-- `image.Transparent`: the uniform fully-transparent source. -/
def transparentImage : rasterImage := fun _ => ⟨0, 0, 0, 0⟩

/-- The two rasters the driver owns: the output map being composed and the
text overlay (`outputMapPtr` and `mapTextImagePtr` in `main`). -/
structure canvasState where
  outputMap : rasterImage
  mapText : rasterImage

/-- The per-transmitter reset (reception.go:146-147): overwrite the output
raster with the base map and clear the text layer to fully transparent,
both with `draw.Src` over the base map's bounds. -/
def resetCanvas (baseMap : rasterImage) (bnds : rect) (st : canvasState) : canvasState :=
  ⟨drawSrc bnds st.outputMap baseMap, drawSrc bnds st.mapText transparentImage⟩

/-- The finalize step (reception.go:173): alpha-composite the text layer
over the output raster with `draw.Over`. -/
def finalizeCanvas (bnds : rect) (st : canvasState) : canvasState :=
  ⟨drawOver bnds st.outputMap st.mapText, st.mapText⟩

/-- A concrete operator record used in concrete evaluations. -/
def opKX6A : operatorData :=
  ⟨"KX6A".toList, ⟨37.39, -122.08⟩, (420, 365), 25, "J-Pole".toList, 3, 20⟩

/-- A concrete icon catalog holding only the reception category "Good" —
in particular the configured transmitter icon "Trans" is absent. -/
def iconsNoTrans : List Str := ["Good".toList]

/-- A concrete one-entry operator table for call sign KX6A. -/
def opsKX6A : List (Str × operatorData) := [("KX6A".toList, opKX6A)]

/-- A concrete non-uniform base map raster used to instantiate canvas
facts. -/
def fixedBase : rasterImage := fun p => ⟨(p.1.toNat % 3) * 1000, 17, 4660, 65535⟩

/-- A concrete canvas state holding stale pixels from a previous map. -/
def scribble : canvasState := ⟨fun _ => ⟨11, 22, 33, 44⟩, fun _ => ⟨55, 66, 77, 88⟩⟩

/-- The raster bounds of a 1000 x 800 base map. -/
def fullRect : rect := ⟨0, 0, 1000, 800⟩

/-- A concrete operator record whose numeric fields are all the -100
unknown sentinel and whose antenna type is empty. -/
def opUnknown : operatorData :=
  ⟨"KZ9Z".toList, ⟨37.4, -122.1⟩, (10, 20), -100, [], -100, -100⟩

/-- Truncation toward zero is monotone. -/
theorem goTrunc_mono {x y : ℚ} (h : x ≤ y) : goTrunc x ≤ goTrunc y := by
  by_cases hx : (0 : ℚ) ≤ x <;> by_cases hy : (0 : ℚ) ≤ y <;>
    simp only [goTrunc, hx, hy, if_true, if_false, if_pos, if_neg, not_false_iff]
  · exact Int.floor_le_floor h
  · exact absurd (le_trans hx h) hy
  · have h1 : (0 : ℤ) ≤ ⌊-x⌋ := Int.floor_nonneg.mpr (by linarith)
    have h2 : (0 : ℤ) ≤ ⌊y⌋ := Int.floor_nonneg.mpr hy
    omega
  · have h3 : ⌊-y⌋ ≤ ⌊-x⌋ := Int.floor_le_floor (by linarith)
    omega

/-- Claim C1: the claim states that in transmit-map mode (`RcvMapFlag`
false) a record's first column becomes the ReportMatrix's transmitter key
and its second the receiver key, and that receive-map mode reverses this.
The code does the exact opposite: evaluated on the single record
("A", "B", "Good"), transmit mode leaves `ReportMatrix["A"]["B"]` empty and
stores the category at `ReportMatrix["B"]["A"]`, while receive mode stores
it at `ReportMatrix["A"]["B"]`.  This contradicts the function's own doc
comment (reception.go:311-323), which says the first column is the
transmitter call sign and that only receive maps swap the two. -/
theorem claimC1_loadReports_swaps_columns :
    (loadReports false [⟨"A".toList, "B".toList, "Good".toList⟩])
        "A".toList "B".toList = none ∧
    (loadReports false [⟨"A".toList, "B".toList, "Good".toList⟩])
        "B".toList "A".toList = some "Good".toList ∧
    (loadReports true [⟨"A".toList, "B".toList, "Good".toList⟩])
        "A".toList "B".toList = some "Good".toList ∧
    (loadReports true [⟨"A".toList, "B".toList, "Good".toList⟩])
        "B".toList "A".toList = none := by
  decide

/-- Claim C2: the claim states that a call-sign filter equal to "all" in any
letter case selects every transmitter of the report file.  The comparison in
the code (reception.go:127) is against the exact uppercase string "ALL"
before any normalization, so the shipped configuration value "all" takes the
explicit-list branch, is uppercased to "ALL", matches no transmitter, and
selects nothing: zero output files.  Only the exact spelling "ALL" selects
all transmitters; an explicit filter list does keep exactly the asked-for
call signs that have reports. -/
theorem claimC2_callSigns_all_is_case_sensitive :
    selectTransmitters "all".toList ["W1AW".toList] = [] ∧
    selectTransmitters "ALL".toList ["W1AW".toList] = ["W1AW".toList] ∧
    selectTransmitters "w1aw, k6abc".toList ["W1AW".toList] = ["W1AW".toList] := by
  decide

/-- Claim C9 counterexample: the operator-file normalization and the
report-file normalization are not identical.  On the concrete call sign
"k6 xyz" the operator loader produces the key "K6XYZ" while the report
loader produces "K6 XYZ", so an operator record and a report record
denoting this same call sign do not match. -/
theorem claimC9_counterexample :
    operatorKey "k6 xyz".toList = "K6XYZ".toList ∧
    reportKey "k6 xyz".toList = "K6 XYZ".toList ∧
    operatorKey "k6 xyz".toList ≠ reportKey "k6 xyz".toList := by
  decide

/-- Claim C9 (amended): operator call signs are normalized to uppercase with
spaces removed, while report call signs are normalized to uppercase only; the
two normalizations agree exactly on call signs whose uppercased form contains
no space, so records differing only in letter case always match, but an
embedded space in a call sign prevents a report record from matching the
operator record. -/
theorem claimC9_amended_normalization :
    (∀ s : Str, operatorKey s = (reportKey s).filter (fun c => c ≠ ' ')) ∧
    (∀ s : Str, ' ' ∉ reportKey s → operatorKey s = reportKey s) := by
  refine ⟨fun s => rfl, fun s h => ?_⟩
  unfold operatorKey reportKey at *
  exact List.filter_eq_self.mpr (fun a ha => by
    simp only [decide_eq_true_eq]
    exact fun hsp => h (hsp ▸ ha))

/-- Claim C4: for every operator record, `plotLegend` never emits the
transmit-power, antenna-height or antenna-gain line when that field equals
the -100 sentinel, never emits the antenna-type line when that field is
empty, and emits each of these attribute lines (with the operator's value)
whenever the field differs from its sentinel. -/
theorem claimC4_legend_omits_unknown_sentinels (flag : Bool) (t : Str)
    (op : operatorData) :
    ((op.xmitPwr = -100 → ∀ w, legendLine.power w ∉ plotLegend flag t op) ∧
     (op.xmitPwr ≠ -100 → legendLine.power op.xmitPwr ∈ plotLegend flag t op)) ∧
    ((op.antType = [] → ∀ s, legendLine.antennaType s ∉ plotLegend flag t op) ∧
     (op.antType ≠ [] → legendLine.antennaType op.antType ∈ plotLegend flag t op)) ∧
    ((op.antHeight = -100 → ∀ x, legendLine.antennaHeight x ∉ plotLegend flag t op) ∧
     (op.antHeight ≠ -100 → legendLine.antennaHeight op.antHeight ∈ plotLegend flag t op)) ∧
    ((op.antGain = -100 → ∀ x, legendLine.antennaGain x ∉ plotLegend flag t op) ∧
     (op.antGain ≠ -100 → legendLine.antennaGain op.antGain ∈ plotLegend flag t op)) := by
  unfold plotLegend
  refine ⟨⟨fun h w => ?_, fun h => ?_⟩, ⟨fun h s => ?_, fun h => ?_⟩,
    ⟨fun h x => ?_, fun h => ?_⟩, ⟨fun h x => ?_, fun h => ?_⟩⟩ <;>
    simp only [h, ne_eq, not_true_eq_false, not_false_eq_true, if_true, if_false,
      ite_not, reduceIte, List.mem_append, List.mem_singleton, List.mem_cons] <;>
    simp [h]

/-- Claim C3: for the projector built from the map's northwest and
southeast corners and the base image's pixel dimensions (both positive,
with the corners projecting to distinct eastings and northings), the
northwest corner projects exactly to pixel (0, 0) and the southeast corner
exactly to (imageWidth, imageHeight) — in particular within the claimed
±1 pixel tolerance. -/
theorem claimC3_corners_project_to_image_corners
    (fromLatLon : gpsCoord → ℚ × ℚ) (nw se : gpsCoord) (w h : ℤ)
    (hw : 0 < w) (hh : 0 < h)
    (he : (fromLatLon nw).1 ≠ (fromLatLon se).1)
    (hn : (fromLatLon nw).2 ≠ (fromLatLon se).2) :
    newGpsToPixel fromLatLon nw se w h nw = (0, 0) ∧
    newGpsToPixel fromLatLon nw se w h se = (w, h) := by
  have hwq : ((w : ℚ)) ≠ 0 := Int.cast_ne_zero.mpr (by omega)
  have hhq : ((h : ℚ)) ≠ 0 := Int.cast_ne_zero.mpr (by omega)
  have hae : (fromLatLon se).1 - (fromLatLon nw).1 ≠ 0 := sub_ne_zero.mpr (Ne.symm he)
  have han : (fromLatLon nw).2 - (fromLatLon se).2 ≠ 0 := sub_ne_zero.mpr hn
  have hhalf : goTrunc (1 / 2) = 0 := by norm_num [goTrunc]
  have cancelw : ((fromLatLon se).1 - (fromLatLon nw).1) /
      (((fromLatLon se).1 - (fromLatLon nw).1) / (w : ℚ)) = (w : ℚ) := by
    rw [div_div_eq_mul_div, mul_comm, mul_div_assoc, div_self hae, mul_one]
  have cancelh : ((fromLatLon nw).2 - (fromLatLon se).2) /
      (((fromLatLon nw).2 - (fromLatLon se).2) / (h : ℚ)) = (h : ℚ) := by
    rw [div_div_eq_mul_div, mul_comm, mul_div_assoc, div_self han, mul_one]
  have truncw : goTrunc ((w : ℚ) + 1 / 2) = w := by
    unfold goTrunc
    rw [if_pos (by positivity), add_comm, Int.floor_add_int]
    norm_num
  have trunch : goTrunc ((h : ℚ) + 1 / 2) = h := by
    unfold goTrunc
    rw [if_pos (by positivity), add_comm, Int.floor_add_int]
    norm_num
  constructor
  · simp only [newGpsToPixel, sub_self, zero_div, zero_add, hhalf, Prod.mk.injEq]
  · simp only [newGpsToPixel, cancelw, cancelh, truncw, trunch, Prod.mk.injEq]

/-- Claim C3 witness: the projector for the shipped map corners under the
locally-linear projection and a 1000 x 800 base image sends the northwest
corner to (0, 0) and the southeast corner to (1000, 800). -/
theorem claimC3_witness :
    newGpsToPixel utmApprox mapNWCorner mapSECorner 1000 800 mapNWCorner = (0, 0) ∧
    newGpsToPixel utmApprox mapNWCorner mapSECorner 1000 800 mapSECorner = (1000, 800) :=
  claimC3_corners_project_to_image_corners utmApprox mapNWCorner mapSECorner 1000 800
    (by norm_num) (by norm_num)
    (by norm_num [utmApprox, mapNWCorner, mapSECorner])
    (by norm_num [utmApprox, mapNWCorner, mapSECorner])

/-- Claim C7 counterexample: the projector is not strictly monotonic.  For
the shipped map corners, the locally-linear projection and a 1000 x 800 base
image, the coordinates (37.39, -122.08) and (37.390001, -122.08) have
strictly increasing latitude at fixed longitude, yet both project to pixel
row 365: the pixel Y does not strictly decrease, because distinct
coordinates less than one pixel apart round to the same integer pixel. -/
theorem claimC7_counterexample :
    (37.39 : ℚ) < 37.390001 ∧
    (newGpsToPixel utmApprox mapNWCorner mapSECorner 1000 800
        ⟨37.39, -122.08⟩).2 = 365 ∧
    (newGpsToPixel utmApprox mapNWCorner mapSECorner 1000 800
        ⟨37.390001, -122.08⟩).2 = 365 := by
  refine ⟨by norm_num, ?_, ?_⟩ <;>
    norm_num [newGpsToPixel, utmApprox, mapNWCorner, mapSECorner, goTrunc]

/-- Claim C7 (amended): the projector is monotonic, but not strictly so:
whenever the underlying locally-flat projection does not decrease the
easting as the longitude grows and does not decrease the northing as the
latitude grows (its documented behavior within one grid zone), a
latitude increase never increases the pixel Y and a longitude increase
never increases the pixel X; strictness fails only because distinct
coordinates may round to the same pixel. -/
theorem claimC7_amended_projector_monotone
    (fromLatLon : gpsCoord → ℚ × ℚ) (nw se : gpsCoord) (w h : ℤ)
    (g g' : gpsCoord) :
    (0 < w → (fromLatLon nw).1 < (fromLatLon se).1 →
      g.long ≤ g'.long → (fromLatLon g).1 ≤ (fromLatLon g').1 →
      (newGpsToPixel fromLatLon nw se w h g).1 ≤
        (newGpsToPixel fromLatLon nw se w h g').1) ∧
    (0 < h → (fromLatLon se).2 < (fromLatLon nw).2 →
      g.lat ≤ g'.lat → (fromLatLon g).2 ≤ (fromLatLon g').2 →
      (newGpsToPixel fromLatLon nw se w h g').2 ≤
        (newGpsToPixel fromLatLon nw se w h g).2) := by
  constructor
  · intro hw hee _ hmon
    have hwq : (0 : ℚ) < (w : ℚ) := by exact_mod_cast hw
    have hx : (0 : ℚ) < ((fromLatLon se).1 - (fromLatLon nw).1) / (w : ℚ) :=
      div_pos (by linarith) hwq
    simp only [newGpsToPixel]
    exact goTrunc_mono (by gcongr)
  · intro hh hnn _ hmon
    have hhq : (0 : ℚ) < (h : ℚ) := by exact_mod_cast hh
    have hy : (0 : ℚ) < ((fromLatLon nw).2 - (fromLatLon se).2) / (h : ℚ) :=
      div_pos (by linarith) hhq
    simp only [newGpsToPixel]
    exact goTrunc_mono (by gcongr)

/-- The receiver loop never faults: every icon it passes to `plotIcon` was
found present in the catalog first. -/
theorem plotIcon_some_isSome (rep : Str) (op : operatorData) :
    (plotIcon (some rep) op).isSome := by
  unfold plotIcon
  split
  · rfl
  · rfl

/-- The receiver loop never faults: every icon it passes to `plotIcon` was
found present in the catalog first. -/
theorem receiverStep_isSome (icons : List Str) (reports : Str → Str → Option Str)
    (operators : Str → operatorData) (t r : Str) :
    (receiverStep icons reports operators t r).isSome := by
  unfold receiverStep
  split
  · rfl
  · show (if (reports t r).getD [] = [] ∨ icons.contains ((reports t r).getD []) = false
        then some [] else plotIcon (some ((reports t r).getD [])) (operators r)).isSome
    split
    · rfl
    · exact plotIcon_some_isSome _ _

/-- Sequencing drawing steps that are all non-faulting is non-faulting. -/
theorem mapSteps_isSome (l : List (Option (List mapAction)))
    (h : ∀ x ∈ l, x.isSome) : (mapSteps l).isSome := by
  induction l with
  | nil => rfl
  | cons step rest ih =>
    obtain ⟨acts, hstep⟩ := Option.isSome_iff_exists.mp (h step (by simp))
    obtain ⟨acc, hacc⟩ := Option.isSome_iff_exists.mp (ih (fun x hx => h x (by simp [hx])))
    simp [mapSteps, hstep, hacc]

/-- Claim C6: in the per-transmitter loop, the receiver equal to the
transmitter is always skipped; a pair with no ReportMatrix entry, or whose
category has no icon-catalog entry, gets no icon, no label and no failure;
and every other pair (present report, catalogued icon, known operator)
renders its icon blit and its call-sign label normally. -/
theorem claimC6_driver_skips_missing_pairs (icons : List Str)
    (reports : Str → Str → Option Str) (operators : Str → operatorData)
    (t r : Str) :
    (receiverStep icons reports operators t t = some []) ∧
    (reports t r = none → receiverStep icons reports operators t r = some []) ∧
    (icons.contains ((reports t r).getD []) = false →
      receiverStep icons reports operators t r = some []) ∧
    (∀ rep, t ≠ r → reports t r = some rep → rep ≠ [] →
      icons.contains rep = true → (operators r).callsign ≠ [] →
      receiverStep icons reports operators t r =
        some [mapAction.blit rep (operators r).pixel,
              mapAction.label (operators r).callsign (operators r).pixel]) := by
  refine ⟨?_, ?_, ?_, ?_⟩
  · simp [receiverStep]
  · intro hnone
    by_cases htr : t = r
    · simp [receiverStep, htr]
    · simp [receiverStep, htr, hnone]
  · intro hcon
    have hcon2 : (reports t r).getD [] ∉ icons := by simpa using hcon
    by_cases htr : t = r
    · simp [receiverStep, htr]
    · simp [receiverStep, htr, hcon2]
  · intro rep htr hsome hne hcon hcall
    have hcon2 : rep ∈ icons := by simpa using hcon
    simp [receiverStep, htr, hsome, hne, hcon2, plotIcon, hcall]

/-- Claim C5 counterexample: with a catalog holding only the category
"Good" (the configured transmitter icon "Trans" absent) and the transmitter
KX6A present in the operator table, the map-generation step for KX6A
faults (`none`): in the code, `icons[cfg.TransIcon]` yields a nil
`image.Image`, and `plotIcon` dereferences it.  A missing transmitter icon
is therefore not a silent no-op. -/
theorem claimC5_counterexample :
    generateMap iconsNoTrans (fun _ _ => none) (opLookup opsKX6A)
      ["KX6A".toList] "Trans".toList false "output".toList "KX6A".toList = none := by
  decide

/-- Claim C5 (amended): for reception-category lookups in the receiver
loop, a category absent from the icon catalog is a silent no-op — the pair
is skipped with no icon drawn and no fault.  For the configured transmitter
icon, however, a missing catalog entry makes the map-generation step fault
whenever the transmitter's operator record is present (only a transmitter
with no operator data escapes, because `plotIcon` returns before touching
the icon). -/
theorem claimC5_amended_missing_icon_policy (icons : List Str)
    (reports : Str → Str → Option Str) (operators : Str → operatorData)
    (receivers : List Str) (transIcon : Str) (flag : Bool) (dir t r : Str) :
    (icons.contains ((reports t r).getD []) = false →
      receiverStep icons reports operators t r = some []) ∧
    (icons.contains transIcon = false → (operators t).callsign ≠ [] →
      generateMap icons reports operators receivers transIcon flag dir t = none) := by
  constructor
  · intro hcon
    have hcon2 : (reports t r).getD [] ∉ icons := by simpa using hcon
    by_cases htr : t = r
    · simp [receiverStep, htr]
    · simp [receiverStep, htr, hcon2]
  · intro hcon hcall
    have hcon2 : transIcon ∉ icons := by simpa using hcon
    rcases hms : mapSteps (receivers.map (receiverStep icons reports operators t)) with
        _ | recActs
    · simp [generateMap, hms]
    · simp [generateMap, hms, hcon2, plotIcon, hcall]

/-- Claim C8: the per-transmitter reset (opaque copy of the base map over
the output raster, text layer cleared to fully transparent) followed
immediately by finalize (alpha-compositing the text layer over the output
raster), with no drawing in between, leaves every pixel of the output
raster equal to the base map: compositing a fully transparent pixel over a
value returns that value exactly. -/
theorem claimC8_reset_finalize_reproduces_base (baseMap : rasterImage)
    (bnds : rect) (st : canvasState) (p : ℤ × ℤ)
    (hp : inRect bnds p = true) :
    (finalizeCanvas bnds (resetCanvas baseMap bnds st)).outputMap p = baseMap p := by
  simp only [finalizeCanvas, resetCanvas, drawOver, drawSrc, hp, if_true,
    transparentImage, overPix]
  cases hbase : baseMap p with
  | mk r g b a =>
    simp only [rgba.mk.injEq]
    refine ⟨?_, ?_, ?_, ?_⟩ <;> simp [Nat.mul_div_cancel]

/-- Claim C8 witness: on a concrete 1000 x 800 base map, a canvas holding
stale pixels, and the pixel (3, 4) inside the bounds, reset followed by
finalize reproduces the base map's pixel. -/
theorem claimC8_witness :
    inRect fullRect (3, 4) = true ∧
    (finalizeCanvas fullRect (resetCanvas fixedBase fullRect scribble)).outputMap (3, 4) =
      fixedBase (3, 4) :=
  ⟨by decide, claimC8_reset_finalize_reproduces_base fixedBase fullRect scribble (3, 4)
    (by decide)⟩

/-- Claim C10: a transmitter present in the report file but absent from the
operator table is still rendered: the map-generation step completes and
emits the output file name, and its legend is built from the zero-valued
default operator record — it carries the transmitter-power 0, antenna-height
0 and antenna-gain 0 lines (0 differs from the -100 unknown sentinel) and
omits only the antenna-type line (empty string). -/
theorem claimC10_missing_operator_default_legend (icons : List Str)
    (reports : Str → Str → Option Str) (ops : List (Str × operatorData))
    (receivers : List Str) (transIcon : Str) (flag : Bool) (dir t : Str)
    (hmiss : ops.find? (fun p => p.1 == t) = none) :
    ∃ acts, generateMap icons reports (opLookup ops) receivers transIcon flag dir t =
      some (acts,
        [legendLine.title flag t, legendLine.frequency, legendLine.power 0,
         legendLine.antennaHeight 0, legendLine.antennaGain 0],
        outputFileName dir flag t) := by
  have hop : opLookup ops t = default := by simp [opLookup, hmiss]
  have hd : (default : operatorData) = ⟨[], ⟨0, 0⟩, (0, 0), 0, [], 0, 0⟩ := rfl
  have hsome := mapSteps_isSome
    (receivers.map (receiverStep icons reports (opLookup ops) t))
    (by
      intro x hx
      obtain ⟨r, _, rfl⟩ := List.mem_map.mp hx
      exact receiverStep_isSome icons reports (opLookup ops) t r)
  obtain ⟨recActs, hrec⟩ := Option.isSome_iff_exists.mp hsome
  have hcall : (opLookup ops t).callsign = [] := by rw [hop, hd]
  have hleg : plotLegend flag t (opLookup ops t) =
      [legendLine.title flag t, legendLine.frequency, legendLine.power 0,
       legendLine.antennaHeight 0, legendLine.antennaGain 0] := by
    rw [hop, hd]
    norm_num [plotLegend]
  refine ⟨recActs ++ [mapAction.skipNote], ?_⟩
  simp [generateMap, hrec, plotIcon, hcall, hleg]

/-- Claim C10 witness: the transmitter "N0CALL" has no record in the
concrete one-operator table, yet its map-generation step completes, with
the default-valued legend and the transmit-map file name. -/
theorem claimC10_witness :
    ∃ acts, generateMap iconsNoTrans (fun _ _ => none) (opLookup opsKX6A)
        ["KX6A".toList] "Trans".toList false "output".toList "N0CALL".toList =
      some (acts,
        [legendLine.title false "N0CALL".toList, legendLine.frequency,
         legendLine.power 0, legendLine.antennaHeight 0, legendLine.antennaGain 0],
        outputFileName "output".toList false "N0CALL".toList) :=
  claimC10_missing_operator_default_legend iconsNoTrans (fun _ _ => none) opsKX6A
    ["KX6A".toList] "Trans".toList false "output".toList "N0CALL".toList (by decide)
